import Mathlib

/-!
# Verification of the nexus webhook receiver core (src/src/main.rs)

Shallow embedding of the authenticated ingestion pipeline:
signature verification (`verify_signature`), payload decoding
(the serde-derived deserializers of `WebhookPayload` and its
sub-structures), and the event dispatch of `handle_webhook`.

Bytes are modelled as `Nat` (values < 256 where produced by the code),
32-bit words as `Nat` reduced modulo 2^32 at every arithmetic step.
The `hmac`/`sha2` crates are embedded as an executable HMAC-SHA256
(FIPS 180-4 / RFC 2104); the `hex` crate as `hexEncodeBytes` /
`hexDecode`.
-/

namespace Nexus

/-- 2^32, the word modulus for SHA-256 arithmetic. -/
def w32 : Nat := 4294967296

/-- Right rotation of a 32-bit word (input assumed < 2^32). -/
def rotr (n x : Nat) : Nat := ((x >>> n) ||| (x <<< (32 - n))) % w32

/-- The eight working variables of the SHA-256 compression function. -/
structure Hash8 where
  a : Nat
  b : Nat
  c : Nat
  d : Nat
  e : Nat
  f : Nat
  g : Nat
  h : Nat
deriving DecidableEq

/-- SHA-256 initial hash value (FIPS 180-4 §5.3.3), in decimal. -/
def sha256H0 : Hash8 :=
  ⟨1779033703, 3144134277, 1013904242, 2773480762,
   1359893119, 2600822924, 528734635, 1541459225⟩

/-- SHA-256 round constants (FIPS 180-4 §4.2.2), in decimal. -/
def sha256K : List Nat :=
  [1116352408, 1899447441, 3049323471, 3921009573,
   961987163, 1508970993, 2453635748, 2870763221,
   3624381080, 310598401, 607225278, 1426881987,
   1925078388, 2162078206, 2614888103, 3248222580,
   3835390401, 4022224774, 264347078, 604807628,
   770255983, 1249150122, 1555081692, 1996064986,
   2554220882, 2821834349, 2952996808, 3210313671,
   3336571891, 3584528711, 113926993, 338241895,
   666307205, 773529912, 1294757372, 1396182291,
   1695183700, 1986661051, 2177026350, 2456956037,
   2730485921, 2820302411, 3259730800, 3345764771,
   3516065817, 3600352804, 4094571909, 275423344,
   430227734, 506948616, 659060556, 883997877,
   958139571, 1322822218, 1537002063, 1747873779,
   1955562222, 2024104815, 2227730452, 2361852424,
   2428436474, 2756734187, 3204031479, 3329325298]

/-- The eight length bytes (big-endian 64-bit) appended by SHA-256 padding. -/
def lenBytes (n : Nat) : List Nat :=
  [(n >>> 56) % 256, (n >>> 48) % 256, (n >>> 40) % 256, (n >>> 32) % 256,
   (n >>> 24) % 256, (n >>> 16) % 256, (n >>> 8) % 256, n % 256]

/-- SHA-256 message padding: append 0x80, zero bytes, and the bit length. -/
def sha256Pad (msg : List Nat) : List Nat :=
  let L := msg.length
  let padLen := (64 - ((L + 9) % 64)) % 64
  msg ++ [128] ++ List.replicate padLen 0 ++ lenBytes (8 * L)

/-- Big-endian conversion of a byte list into 32-bit words, 4 bytes each. -/
def bytesToWords : List Nat → List Nat
  | b0 :: b1 :: b2 :: b3 :: rest =>
      (((b0 * 256 + b1) * 256 + b2) * 256 + b3) :: bytesToWords rest
  | _ => []

/-- Split a word list into 16-word message blocks. -/
def wordsToBlocks : List Nat → List (List Nat)
  | w0 :: w1 :: w2 :: w3 :: w4 :: w5 :: w6 :: w7 ::
    w8 :: w9 :: w10 :: w11 :: w12 :: w13 :: w14 :: w15 :: rest =>
      [w0, w1, w2, w3, w4, w5, w6, w7, w8, w9, w10, w11, w12, w13, w14, w15]
        :: wordsToBlocks rest
  | _ => []

/-- The next word of the SHA-256 message schedule, from the words so far. -/
def nextW (w : List Nat) : Nat :=
  let n := w.length
  let x15 := w.getD (n - 15) 0
  let x2 := w.getD (n - 2) 0
  let s0 := (rotr 7 x15) ^^^ (rotr 18 x15) ^^^ (x15 >>> 3)
  let s1 := (rotr 17 x2) ^^^ (rotr 19 x2) ^^^ (x2 >>> 10)
  (w.getD (n - 16) 0 + s0 + w.getD (n - 7) 0 + s1) % w32

/-- Extend the message schedule by `n` further words. -/
def extendW (w : List Nat) : Nat → List Nat
  | 0 => w
  | n + 1 => extendW (w ++ [nextW w]) n

/-- One round of the SHA-256 compression function. -/
def sha256Round (st : Hash8) (k wi : Nat) : Hash8 :=
  let S1 := (rotr 6 st.e) ^^^ (rotr 11 st.e) ^^^ (rotr 25 st.e)
  let ch := (st.e &&& st.f) ^^^ ((st.e ^^^ 0xffffffff) &&& st.g)
  let temp1 := (st.h + S1 + ch + k + wi) % w32
  let S0 := (rotr 2 st.a) ^^^ (rotr 13 st.a) ^^^ (rotr 22 st.a)
  let maj := (st.a &&& st.b) ^^^ (st.a &&& st.c) ^^^ (st.b &&& st.c)
  let temp2 := (S0 + maj) % w32
  ⟨(temp1 + temp2) % w32, st.a, st.b, st.c, (st.d + temp1) % w32, st.e, st.f, st.g⟩

/-- Run the compression rounds over the zipped (constant, schedule) pairs. -/
def sha256Rounds (st : Hash8) : List (Nat × Nat) → Hash8
  | [] => st
  | (k, wi) :: rest => sha256Rounds (sha256Round st k wi) rest

/-- Process one 16-word block: extend the schedule, compress, add back. -/
def sha256Block (st : Hash8) (block : List Nat) : Hash8 :=
  let w := extendW block 48
  let st2 := sha256Rounds st (sha256K.zip w)
  ⟨(st.a + st2.a) % w32, (st.b + st2.b) % w32, (st.c + st2.c) % w32,
   (st.d + st2.d) % w32, (st.e + st2.e) % w32, (st.f + st2.f) % w32,
   (st.g + st2.g) % w32, (st.h + st2.h) % w32⟩

/-- Big-endian byte serialization of a 32-bit word. -/
def wordBytes (w : Nat) : List Nat :=
  [(w >>> 24) % 256, (w >>> 16) % 256, (w >>> 8) % 256, w % 256]

/-- SHA-256 of a byte string, as its 32-byte big-endian digest. -/
def sha256 (msg : List Nat) : List Nat :=
  let st := (wordsToBlocks (bytesToWords (sha256Pad msg))).foldl sha256Block sha256H0
  (([st.a, st.b, st.c, st.d, st.e, st.f, st.g, st.h]).map wordBytes).flatten

/-- HMAC-SHA256 (RFC 2104): the keyed digest the `hmac` crate computes;
keys of every length are accepted (keys over one block are hashed first). -/
def hmacSha256 (key msg : List Nat) : List Nat :=
  let k1 := if 64 < key.length then sha256 key else key
  let k0 := k1 ++ List.replicate (64 - k1.length) 0
  let ipadded := k0.map (fun b => b ^^^ 0x36)
  let opadded := k0.map (fun b => b ^^^ 0x5c)
  sha256 (opadded ++ sha256 (ipadded ++ msg))

/-- Lowercase hex encoding of one byte, as the `hex` crate emits it. -/
def hexEncodeByte (b : Nat) : List Char :=
  [Nat.digitChar (b / 16), Nat.digitChar (b % 16)]

/-- Lowercase hex encoding of a byte string. -/
def hexEncodeBytes (bs : List Nat) : List Char :=
  (bs.map hexEncodeByte).flatten

/-- Value of a hex digit character; `hex::decode` accepts both cases. -/
def hexDigitVal (c : Char) : Option Nat :=
  if '0' ≤ c ∧ c ≤ '9' then some (c.toNat - 48)
  else if 'a' ≤ c ∧ c ≤ 'f' then some (c.toNat - 87)
  else if 'A' ≤ c ∧ c ≤ 'F' then some (c.toNat - 55)
  else none

/-- `hex::decode`: fails on odd length or any non-hex character. -/
def hexDecode : List Char → Option (List Nat)
  | [] => some []
  | [_] => none
  | c1 :: c2 :: rest => do
      let hi ← hexDigitVal c1
      let lo ← hexDigitVal c2
      let tail ← hexDecode rest
      some ((hi * 16 + lo) :: tail)

/-- The literal `"sha256="` tag checked by `verify_signature`. -/
def sigTag : List Char := ['s', 'h', 'a', '2', '5', '6', '=']

/-- `verify_signature` from src/src/main.rs (lines 85–103): require the
`sha256=` tag, hex-decode the suffix, and compare it with the HMAC-SHA256
digest of the payload under the secret.  The secret and payload are byte
strings; the header value is a string (modelled by its character list via
`String.data`).  `HmacSha256::new_from_slice` never fails for HMAC (every
key length is valid), so the `Err` arm of the Rust `match` is dead;
`Mac::verify_slice` succeeds exactly when the decoded bytes equal the
computed digest. -/
def verify_signature (secret payload : List Nat) (signature : String) : Bool :=
  if ¬ sigTag.isPrefixOf signature.data then false
  else
    match hexDecode (signature.data.drop 7) with
    | some expected => hmacSha256 secret payload == expected
    | none => false

/-- The header value a sender who knows the secret attaches: the literal
prefix `sha256=` followed by the lowercase hex HMAC-SHA256 digest. -/
def sign_header (secret payload : List Nat) : String :=
  String.mk (sigTag ++ hexEncodeBytes (hmacSha256 secret payload))

/-! ## Payload decoding (serde_json + the derived Deserialize impls) -/

/-- A JSON number as serde_json sees it for integer deserialization:
an exact integer token, or a float token (has a fraction or exponent);
deserializing `u64` from a float is a type error, so the float's value
is irrelevant to the envelope's decoding. -/
inductive JsonNum where
  | int (i : Int)
  | float

/-- JSON values, the structural result of parsing the body bytes. -/
inductive Json where
  | null
  | bool (b : Bool)
  | num (n : JsonNum)
  | str (s : String)
  | arr (elems : List Json)
  | obj (fields : List (String × Json))

/-- `User` from src/src/main.rs (lines 50–54). -/
structure User where
  login : String
  html_url : String
deriving DecidableEq

/-- `Repository` from src/src/main.rs (lines 43–48). -/
structure Repository where
  name : String
  full_name : String
  html_url : String
deriving DecidableEq

/-- `PullRequest` from src/src/main.rs (lines 56–63); `number` is `u64`. -/
structure PullRequest where
  number : Nat
  title : String
  html_url : String
  state : String
  user : User
deriving DecidableEq

/-- `Issue` from src/src/main.rs (lines 65–72). -/
structure Issue where
  number : Nat
  title : String
  html_url : String
  state : String
  user : User
deriving DecidableEq

/-- `WebhookPayload` from src/src/main.rs (lines 34–41): every field
is an `Option`, so every sub-object is optional. -/
structure WebhookPayload where
  action : Option String
  repository : Option Repository
  sender : Option User
  pull_request : Option PullRequest
  issue : Option Issue
deriving DecidableEq

/-- Look a declared field up in a JSON object, as the serde-derived
visitor does: `none` on a duplicate occurrence of the field (serde's
"duplicate field" error), `some none` when absent, `some (some v)`
when present once. -/
def getField (fields : List (String × Json)) (name : String) : Option (Option Json) :=
  match fields.filter (fun kv => kv.1 == name) with
  | [] => some none
  | [kv] => some (some kv.2)
  | _ => none

/-- A required struct field: absent, duplicate, or badly typed is an error. -/
def reqField (f : Json → Option α) (fields : List (String × Json))
    (name : String) : Option α :=
  match getField fields name with
  | none => none
  | some none => none
  | some (some v) => f v

/-- An `Option<T>` struct field: absent or `null` decodes to `none`;
a present non-null value must decode as `T`. -/
def optField (f : Json → Option α) (fields : List (String × Json))
    (name : String) : Option (Option α) :=
  match getField fields name with
  | none => none
  | some none => some none
  | some (some .null) => some none
  | some (some v) => (f v).map some

/-- serde deserialization of `String`: only a JSON string is accepted. -/
def deString : Json → Option String
  | .str s => some s
  | _ => none

/-- serde deserialization of `u64`: only an exact integer token in
`[0, 2^64)` is accepted; strings, floats and negatives are type errors. -/
def deU64 : Json → Option Nat
  | .num (.int i) => if 0 ≤ i ∧ i < 18446744073709551616 then some i.toNat else none
  | _ => none

/-- The derived `Deserialize` of `User`: a JSON object with mandatory
`login` and `html_url` string fields; unknown fields are ignored. -/
def deUser : Json → Option User
  | .obj fields => do
      let login ← reqField deString fields "login"
      let html_url ← reqField deString fields "html_url"
      some ⟨login, html_url⟩
  | _ => none

/-- The derived `Deserialize` of `Repository`. -/
def deRepository : Json → Option Repository
  | .obj fields => do
      let name ← reqField deString fields "name"
      let full_name ← reqField deString fields "full_name"
      let html_url ← reqField deString fields "html_url"
      some ⟨name, full_name, html_url⟩
  | _ => none

/-- The derived `Deserialize` of `PullRequest`. -/
def dePullRequest : Json → Option PullRequest
  | .obj fields => do
      let number ← reqField deU64 fields "number"
      let title ← reqField deString fields "title"
      let html_url ← reqField deString fields "html_url"
      let state ← reqField deString fields "state"
      let user ← reqField deUser fields "user"
      some ⟨number, title, html_url, state, user⟩
  | _ => none

/-- The derived `Deserialize` of `Issue`. -/
def deIssue : Json → Option Issue
  | .obj fields => do
      let number ← reqField deU64 fields "number"
      let title ← reqField deString fields "title"
      let html_url ← reqField deString fields "html_url"
      let state ← reqField deString fields "state"
      let user ← reqField deUser fields "user"
      some ⟨number, title, html_url, state, user⟩
  | _ => none

/-- The derived `Deserialize` of `WebhookPayload`: all five known fields
optional, unknown top-level fields ignored, non-object input an error. -/
def deWebhookPayload : Json → Option WebhookPayload
  | .obj fields => do
      let action ← optField deString fields "action"
      let repository ← optField deRepository fields "repository"
      let sender ← optField deUser fields "sender"
      let pull_request ← optField dePullRequest fields "pull_request"
      let issue ← optField deIssue fields "issue"
      some ⟨action, repository, sender, pull_request, issue⟩
  | _ => none

/-! ## The webhook handler (src/src/main.rs, lines 105–197) -/

/-- The two error statuses `handle_webhook` can return. -/
inductive StatusCode where
  | badRequest
  | unauthorized
deriving DecidableEq

/-- `WebhookResponse` from src/src/main.rs (lines 74–78). -/
structure WebhookResponse where
  message : String
  processed : Bool
deriving DecidableEq

/-- An HTTP header value: either valid visible-ASCII text (for which
`HeaderValue::to_str` succeeds) or a value on which `to_str` fails. -/
inductive HeaderValue where
  | valid (s : String)
  | invalid
deriving DecidableEq

/-- `HeaderValue::to_str().ok()`. -/
def HeaderValue.toStr : HeaderValue → Option String
  | .valid s => some s
  | .invalid => none

/-- `handle_pull_request_event` from src/src/main.rs (lines 176–197):
when action, pull_request and repository are all present it switches on
the action (`opened` / `closed` / `synchronize` / default), every arm
only logging; it returns `Ok(())` on every path. -/
def handle_pull_request_event (payload : WebhookPayload) : Except StatusCode Unit :=
  match payload.action, payload.pull_request, payload.repository with
  | some action, some _, some _ =>
      if action = "opened" then .ok ()
      else if action = "closed" then .ok ()
      else if action = "synchronize" then .ok ()
      else .ok ()
  | _, _, _ => .ok ()

/-- The event dispatch of `handle_webhook` (src/src/main.rs, lines
135–173): switch on the event type string; sub-handlers only log, the
`pull_request` arm propagates `handle_pull_request_event`'s result with
`?`; finally the success response is built from the event type. -/
def processEvent (event_type : String) (payload : WebhookPayload) :
    Except StatusCode WebhookResponse :=
  let respond : Except StatusCode WebhookResponse :=
    .ok ⟨"Successfully processed " ++ event_type ++ " event", true⟩
  if event_type = "push" then respond
  else if event_type = "pull_request" then
    match payload.pull_request with
    | some _ =>
        match handle_pull_request_event payload with
        | .ok _ => respond
        | .error e => .error e
    | none => respond
  else if event_type = "issues" then
    match payload.issue with
    | some _ => respond
    | none => respond
  else if event_type = "ping" then respond
  else respond

/-- `handle_webhook` from src/src/main.rs (lines 105–174).  The two
headers the code reads are passed as separate optional values (the
`HeaderMap` lookups `headers.get("x-hub-signature-256")` and
`headers.get("x-github-event")`).  `body` is the raw body bytes (fed to
the verifier); `bodyJson` models `serde_json`'s parse of those same
bytes — `none` when the bytes are not well-formed JSON (the textual JSON
grammar itself is not embedded; the two arguments denote the same body). -/
def handle_webhook (webhook_secret : Option (List Nat))
    (sigHeader eventHeader : Option HeaderValue)
    (body : List Nat) (bodyJson : Option Json) :
    Except StatusCode WebhookResponse :=
  let afterAuth : Except StatusCode WebhookResponse :=
    match bodyJson with
    | none => .error .badRequest
    | some j =>
      match deWebhookPayload j with
      | none => .error .badRequest
      | some payload =>
        let event_type :=
          match eventHeader >>= HeaderValue.toStr with
          | some s => s
          | none => "unknown"
        processEvent event_type payload
  match webhook_secret with
  | some secret =>
    match sigHeader with
    | some sv =>
      match sv.toStr with
      | none => .error .badRequest
      | some sigStr =>
        if ¬ verify_signature secret body sigStr then .error .unauthorized
        else afterAuth
    | none => .error .unauthorized
  | none => afterAuth

/-! ## Supporting lemmas -/

theorem hexDigitVal_digitChar : ∀ n < 16, hexDigitVal (Nat.digitChar n) = some n := by
  decide

theorem hexDecode_hexEncode (bs : List Nat) (hb : ∀ b ∈ bs, b < 256) :
    hexDecode (hexEncodeBytes bs) = some bs := by
  induction bs with
  | nil => rfl
  | cons b rest ih =>
      have hb256 : b < 256 := hb b (by simp)
      have h1 : b / 16 < 16 := by omega
      have h2 : b % 16 < 16 := Nat.mod_lt _ (by norm_num)
      have ih' := ih (fun x hx => hb x (by simp [hx]))
      simp only [hexEncodeBytes, List.map_cons, List.flatten_cons, hexEncodeByte,
        List.cons_append, List.nil_append]
      simp only [hexEncodeBytes] at ih'
      simp [hexDecode, hexDigitVal_digitChar _ h1, hexDigitVal_digitChar _ h2, ih']
      omega

theorem sha256_byte_lt (msg : List Nat) : ∀ b ∈ sha256 msg, b < 256 := by
  intro b hb
  simp only [sha256, List.mem_flatten, List.mem_map] at hb
  obtain ⟨l, ⟨w, _, rfl⟩, hbl⟩ := hb
  simp only [wordBytes, List.mem_cons, List.not_mem_nil, or_false] at hbl
  rcases hbl with rfl | rfl | rfl | rfl <;> omega

theorem hmacSha256_byte_lt (key msg : List Nat) :
    ∀ b ∈ hmacSha256 key msg, b < 256 := by
  intro b hb
  exact sha256_byte_lt _ b hb

theorem isPrefixOf_append_self (l r : List Char) : l.isPrefixOf (l ++ r) = true := by
  induction l with
  | nil => simp [List.isPrefixOf]
  | cons a as ih => simp [List.isPrefixOf, ih]

theorem handle_pull_request_event_ok (payload : WebhookPayload) :
    handle_pull_request_event payload = .ok () := by
  unfold handle_pull_request_event
  split
  · split_ifs <;> rfl
  · rfl

theorem processEvent_always_ok (kind : String) (payload : WebhookPayload) :
    processEvent kind payload =
      .ok ⟨"Successfully processed " ++ kind ++ " event", true⟩ := by
  unfold processEvent
  split_ifs <;> try rfl
  all_goals
    cases payload.pull_request <;>
      simp [handle_pull_request_event_ok]
  all_goals (cases payload.issue <;> rfl)

/-! ## The claims -/

/-- C1: for every secret `s` and payload `p`, `verify_signature` accepts
the header built as the literal `sha256=` prefix followed by the lowercase
hex encoding of the HMAC-SHA256 digest of `p` under `s`. -/
theorem C1_verify_accepts_signed (s p : List Nat) :
    verify_signature s p (sign_header s p) = true := by
  have hdec := hexDecode_hexEncode _ (hmacSha256_byte_lt s p)
  have hdrop : (sigTag ++ hexEncodeBytes (hmacSha256 s p)).drop 7
      = hexEncodeBytes (hmacSha256 s p) := by simp [sigTag]
  simp [verify_signature, sign_header, isPrefixOf_append_self, hdrop, hdec]

/-- C2: while a secret is configured, a missing signature header, and a
present-but-failing one (wrong secret, bad hex, unsupported algorithm
tag, or digest mismatch — all the cases in which `verify_signature`
returns false), each yield the unauthorized status: the body is never
decoded, no dispatch happens, and the response is identical in every
sub-case. -/
theorem C2_auth_failure_unauthorized (s : List Nat) (sig ev : Option HeaderValue)
    (body : List Nat) (bodyJson : Option Json)
    (h : sig = none ∨
      ∃ cs : String, sig = some (.valid cs) ∧ verify_signature s body cs = false) :
    handle_webhook (some s) sig ev body bodyJson = .error .unauthorized := by
  rcases h with rfl | ⟨cs, rfl, hv⟩
  · rfl
  · simp [handle_webhook, HeaderValue.toStr, hv]

theorem C2_auth_failure_unauthorized_witness :
    handle_webhook (some [1]) none none [] none = .error .unauthorized :=
  C2_auth_failure_unauthorized [1] none none [] none (Or.inl rfl)

/-- C3: for every event-kind string (recognized or not) and every decoded
envelope, the dispatch of `handle_webhook` reaches the single successful
terminal state: the message names the kind and `processed` is true; no
kind and no envelope shape produces a failure. -/
theorem C3_dispatch_always_succeeds (kind : String) (payload : WebhookPayload) :
    processEvent kind payload =
      .ok ⟨"Successfully processed " ++ kind ++ " event", true⟩ :=
  processEvent_always_ok kind payload

set_option maxRecDepth 100000 in
/-- C4 counterexample: the claim says `verify_signature` returns false
for an empty secret and for an empty payload, but with the correctly
signed header it returns true on both (HMAC accepts an empty key, and
an empty payload is a valid message). -/
theorem C4_counterexample_empty_secret_payload :
    verify_signature [] [] (sign_header [] []) = true := by
  decide

/-- C4 (amended): `verify_signature` is total and returns false for a
header value that lacks the `sha256=` prefix or whose suffix is not
valid hex; for an empty secret or an empty payload it still returns a
plain boolean (never throws), but that boolean is true when the digest
matches, so "returns false" holds only for the two malformed-header
shapes. -/
theorem C4_verify_false_on_malformed (s p : List Nat) (sig : String)
    (h : ¬ sigTag.isPrefixOf sig.data ∨ hexDecode (sig.data.drop 7) = none) :
    verify_signature s p sig = false := by
  rcases h with h | h
  · simp [verify_signature, h]
  · by_cases hp : sigTag.isPrefixOf sig.data
    · simp [verify_signature, hp, h]
    · simp [verify_signature, hp]

theorem C4_verify_false_on_malformed_witness :
    verify_signature [1] [2] "bogus" = false ∧
    verify_signature [1] [2] "sha256=zz" = false :=
  ⟨C4_verify_false_on_malformed [1] [2] "bogus" (Or.inl (by decide)),
   C4_verify_false_on_malformed [1] [2] "sha256=zz" (Or.inr (by decide))⟩

/-- C5: with no secret configured, `handle_webhook` never consults the
signature header or the verifier. -/
theorem C5_no_secret_bypasses_verifier (sig ev : Option HeaderValue)
    (body altBody : List Nat) (bodyJson : Option Json) :
    handle_webhook none sig ev body bodyJson =
      handle_webhook none none ev altBody bodyJson ∧
    (∀ j payload, bodyJson = some j → deWebhookPayload j = some payload →
      handle_webhook none sig ev body bodyJson =
        .ok ⟨"Successfully processed " ++
          (match ev >>= HeaderValue.toStr with
           | some s => s
           | none => "unknown") ++ " event", true⟩) := by
  refine ⟨rfl, ?_⟩
  rintro j payload rfl hde
  cases hev : ev >>= HeaderValue.toStr <;>
    simp [handle_webhook, hde, hev, processEvent_always_ok]

theorem C5_no_secret_bypasses_verifier_witness :
    handle_webhook none (some (.valid "junk")) none [5] (some (.obj [])) =
      .ok ⟨"Successfully processed unknown event", true⟩ :=
  ((C5_no_secret_bypasses_verifier (some (.valid "junk")) none [5] []
      (some (.obj []))).2 (.obj []) ⟨none, none, none, none, none⟩ rfl
        (by rfl)).trans (by rfl)

theorem reqField_none_of_absent (f : Json → Option α)
    (fields : List (String × Json)) (name : String)
    (h : getField fields name = some none) : reqField f fields name = none := by
  simp [reqField, h]

theorem deWebhookPayload_none_of_pr (fields : List (String × Json))
    (h : optField dePullRequest fields "pull_request" = none) :
    deWebhookPayload (.obj fields) = none := by
  simp only [deWebhookPayload]
  cases optField deString fields "action" <;>
    cases optField deRepository fields "repository" <;>
      cases optField deUser fields "sender" <;>
        simp [h]

theorem deWebhookPayload_none_of_repo (fields : List (String × Json))
    (h : optField deRepository fields "repository" = none) :
    deWebhookPayload (.obj fields) = none := by
  simp only [deWebhookPayload]
  cases optField deString fields "action" <;> simp [h]

theorem deWebhookPayload_none_of_sender (fields : List (String × Json))
    (h : optField deUser fields "sender" = none) :
    deWebhookPayload (.obj fields) = none := by
  simp only [deWebhookPayload]
  cases optField deString fields "action" <;>
    cases optField deRepository fields "repository" <;>
      simp [h]

theorem deWebhookPayload_none_of_issue (fields : List (String × Json))
    (h : optField deIssue fields "issue" = none) :
    deWebhookPayload (.obj fields) = none := by
  simp only [deWebhookPayload]
  cases optField deString fields "action" <;>
    cases optField deRepository fields "repository" <;>
      cases optField deUser fields "sender" <;>
        cases optField dePullRequest fields "pull_request" <;>
          simp [h]

theorem optField_none_of_present_bad (f : Json → Option α)
    (fields : List (String × Json)) (key : String) (sf : List (String × Json))
    (hp : getField fields key = some (some (.obj sf)))
    (hf : f (.obj sf) = none) : optField f fields key = none := by
  simp [optField, hp, hf]

theorem deUser_none_of_missing (sf : List (String × Json)) (name : String)
    (hn : name ∈ ["login", "html_url"])
    (hm : getField sf name = some none) : deUser (.obj sf) = none := by
  have hr := reqField_none_of_absent deString sf name hm
  simp only [List.mem_cons, List.not_mem_nil, or_false] at hn
  rcases hn with rfl | rfl
  · simp [deUser, hr]
  · simp only [deUser]
    cases reqField deString sf "login" <;> simp [hr]

theorem deRepository_none_of_missing (rf : List (String × Json)) (name : String)
    (hn : name ∈ ["name", "full_name", "html_url"])
    (hm : getField rf name = some none) : deRepository (.obj rf) = none := by
  have hr := reqField_none_of_absent deString rf name hm
  simp only [List.mem_cons, List.not_mem_nil, or_false] at hn
  rcases hn with rfl | rfl | rfl
  · simp [deRepository, hr]
  · simp only [deRepository]
    cases reqField deString rf "name" <;> simp [hr]
  · simp only [deRepository]
    cases reqField deString rf "name" <;>
      cases reqField deString rf "full_name" <;> simp [hr]

theorem dePullRequest_none_of_missing (pf : List (String × Json)) (name : String)
    (hn : name ∈ ["number", "title", "html_url", "state", "user"])
    (hm : getField pf name = some none) : dePullRequest (.obj pf) = none := by
  simp only [List.mem_cons, List.not_mem_nil, or_false] at hn
  rcases hn with rfl | rfl | rfl | rfl | rfl
  · simp [dePullRequest, reqField_none_of_absent deU64 pf "number" hm]
  · have hr := reqField_none_of_absent deString pf "title" hm
    simp only [dePullRequest]
    cases reqField deU64 pf "number" <;> simp [hr]
  · have hr := reqField_none_of_absent deString pf "html_url" hm
    simp only [dePullRequest]
    cases reqField deU64 pf "number" <;>
      cases reqField deString pf "title" <;> simp [hr]
  · have hr := reqField_none_of_absent deString pf "state" hm
    simp only [dePullRequest]
    cases reqField deU64 pf "number" <;>
      cases reqField deString pf "title" <;>
        cases reqField deString pf "html_url" <;> simp [hr]
  · have hr := reqField_none_of_absent deUser pf "user" hm
    simp only [dePullRequest]
    cases reqField deU64 pf "number" <;>
      cases reqField deString pf "title" <;>
        cases reqField deString pf "html_url" <;>
          cases reqField deString pf "state" <;> simp [hr]

theorem deIssue_none_of_missing (jf : List (String × Json)) (name : String)
    (hn : name ∈ ["number", "title", "html_url", "state", "user"])
    (hm : getField jf name = some none) : deIssue (.obj jf) = none := by
  simp only [List.mem_cons, List.not_mem_nil, or_false] at hn
  rcases hn with rfl | rfl | rfl | rfl | rfl
  · simp [deIssue, reqField_none_of_absent deU64 jf "number" hm]
  · have hr := reqField_none_of_absent deString jf "title" hm
    simp only [deIssue]
    cases reqField deU64 jf "number" <;> simp [hr]
  · have hr := reqField_none_of_absent deString jf "html_url" hm
    simp only [deIssue]
    cases reqField deU64 jf "number" <;>
      cases reqField deString jf "title" <;> simp [hr]
  · have hr := reqField_none_of_absent deString jf "state" hm
    simp only [deIssue]
    cases reqField deU64 jf "number" <;>
      cases reqField deString jf "title" <;>
        cases reqField deString jf "html_url" <;> simp [hr]
  · have hr := reqField_none_of_absent deUser jf "user" hm
    simp only [deIssue]
    cases reqField deU64 jf "number" <;>
      cases reqField deString jf "title" <;>
        cases reqField deString jf "html_url" <;>
          cases reqField deString jf "state" <;> simp [hr]

theorem handle_webhook_bad_request_of_decode_none (j : Json)
    (hj : deWebhookPayload j = none) (sig ev : Option HeaderValue)
    (body : List Nat) :
    handle_webhook none sig ev body (some j) = .error .badRequest := by
  simp [handle_webhook, hj]

/-- C6: a body whose `pull_request.number` is a string (any string, with
the surrounding fields arbitrary) fails to decode, and the request is
answered with the bad-request status. -/
theorem C6_pr_number_string_bad_request (fields prf : List (String × Json))
    (s : String)
    (hpr : getField fields "pull_request" = some (some (.obj prf)))
    (hnum : getField prf "number" = some (some (.str s))) :
    deWebhookPayload (.obj fields) = none ∧
    ∀ sig ev : Option HeaderValue, ∀ body : List Nat,
      handle_webhook none sig ev body (some (.obj fields)) = .error .badRequest := by
  have hpr0 : dePullRequest (.obj prf) = none := by
    simp [dePullRequest, reqField, hnum, deU64]
  have hopt : optField dePullRequest fields "pull_request" = none := by
    simp [optField, hpr, hpr0]
  have hde := deWebhookPayload_none_of_pr fields hopt
  exact ⟨hde, fun sig ev body => handle_webhook_bad_request_of_decode_none _ hde sig ev body⟩

theorem C6_pr_number_string_bad_request_witness :
    deWebhookPayload (.obj [("pull_request", .obj [("number", .str "one")])]) = none ∧
    ∀ sig ev : Option HeaderValue, ∀ body : List Nat,
      handle_webhook none sig ev body
        (some (.obj [("pull_request", .obj [("number", .str "one")])])) =
          .error .badRequest :=
  C6_pr_number_string_bad_request [("pull_request", .obj [("number", .str "one")])]
    [("number", .str "one")] "one" (by rfl) (by rfl)

/-- C7: a body in which every known envelope field is absent — whatever
unknown top-level fields it carries — decodes successfully to the
all-absent envelope; unknown fields never cause a decode error. -/
theorem C7_unknown_fields_ignored (fields : List (String × Json))
    (h : ∀ n ∈ fields.map Prod.fst,
      n ∉ ["action", "repository", "sender", "pull_request", "issue"]) :
    deWebhookPayload (.obj fields) = some ⟨none, none, none, none, none⟩ := by
  have hg : ∀ name ∈ ["action", "repository", "sender", "pull_request", "issue"],
      getField fields name = some none := by
    intro name hname
    have hf : fields.filter (fun kv => kv.1 == name) = [] := by
      rw [List.filter_eq_nil_iff]
      intro kv hkv
      simp only [beq_iff_eq]
      exact fun e => h kv.1 (List.mem_map_of_mem _ hkv) (e ▸ hname)
    simp [getField, hf]
  simp [deWebhookPayload, optField,
    hg "action" (by simp), hg "repository" (by simp), hg "sender" (by simp),
    hg "pull_request" (by simp), hg "issue" (by simp)]

theorem C7_unknown_fields_ignored_witness :
    deWebhookPayload (.obj [("x_unknown", .null), ("count", .num (.int 2))]) =
      some ⟨none, none, none, none, none⟩ :=
  C7_unknown_fields_ignored [("x_unknown", .null), ("count", .num (.int 2))]
    (by decide)

/-- C9: inner fields of a present sub-object are mandatory — a present
`repository`, `sender`, `pull_request` or `issue` object that lacks any
of its declared fields makes decoding fail, and the request is answered
with the bad-request status. -/
theorem C9_missing_inner_field_bad_request (fields : List (String × Json))
    (sig ev : Option HeaderValue) (body : List Nat) :
    (∀ rf name, getField fields "repository" = some (some (.obj rf)) →
      name ∈ ["name", "full_name", "html_url"] → getField rf name = some none →
      deWebhookPayload (.obj fields) = none ∧
        handle_webhook none sig ev body (some (.obj fields)) = .error .badRequest) ∧
    (∀ sf name, getField fields "sender" = some (some (.obj sf)) →
      name ∈ ["login", "html_url"] → getField sf name = some none →
      deWebhookPayload (.obj fields) = none ∧
        handle_webhook none sig ev body (some (.obj fields)) = .error .badRequest) ∧
    (∀ pf name, getField fields "pull_request" = some (some (.obj pf)) →
      name ∈ ["number", "title", "html_url", "state", "user"] →
      getField pf name = some none →
      deWebhookPayload (.obj fields) = none ∧
        handle_webhook none sig ev body (some (.obj fields)) = .error .badRequest) ∧
    (∀ jf name, getField fields "issue" = some (some (.obj jf)) →
      name ∈ ["number", "title", "html_url", "state", "user"] →
      getField jf name = some none →
      deWebhookPayload (.obj fields) = none ∧
        handle_webhook none sig ev body (some (.obj fields)) = .error .badRequest) := by
  refine ⟨fun rf name hp hn hm => ?_, fun sf name hp hn hm => ?_,
    fun pf name hp hn hm => ?_, fun jf name hp hn hm => ?_⟩
  · have hde := deWebhookPayload_none_of_repo fields
      (optField_none_of_present_bad deRepository fields "repository" rf hp
        (deRepository_none_of_missing rf name hn hm))
    exact ⟨hde, handle_webhook_bad_request_of_decode_none _ hde sig ev body⟩
  · have hde := deWebhookPayload_none_of_sender fields
      (optField_none_of_present_bad deUser fields "sender" sf hp
        (deUser_none_of_missing sf name hn hm))
    exact ⟨hde, handle_webhook_bad_request_of_decode_none _ hde sig ev body⟩
  · have hde := deWebhookPayload_none_of_pr fields
      (optField_none_of_present_bad dePullRequest fields "pull_request" pf hp
        (dePullRequest_none_of_missing pf name hn hm))
    exact ⟨hde, handle_webhook_bad_request_of_decode_none _ hde sig ev body⟩
  · have hde := deWebhookPayload_none_of_issue fields
      (optField_none_of_present_bad deIssue fields "issue" jf hp
        (deIssue_none_of_missing jf name hn hm))
    exact ⟨hde, handle_webhook_bad_request_of_decode_none _ hde sig ev body⟩

theorem C9_missing_inner_field_bad_request_witness :
    (deWebhookPayload (.obj [("repository", .obj [("name", .str "r")])]) = none ∧
      handle_webhook none none none []
        (some (.obj [("repository", .obj [("name", .str "r")])])) =
          .error .badRequest) ∧
    (deWebhookPayload (.obj [("issue", .obj [("number", .num (.int 3))])]) = none ∧
      handle_webhook none none none []
        (some (.obj [("issue", .obj [("number", .num (.int 3))])])) =
          .error .badRequest) :=
  ⟨(C9_missing_inner_field_bad_request [("repository", .obj [("name", .str "r")])]
      none none []).1 [("name", .str "r")] "full_name" (by rfl) (by decide) (by rfl),
   (C9_missing_inner_field_bad_request [("issue", .obj [("number", .num (.int 3))])]
      none none []).2.2.2 [("number", .num (.int 3))] "user" (by rfl) (by decide)
        (by rfl)⟩

/-- C10: for an authenticated request (no secret configured, or the
signature header carries a verifying value) whose body decodes, an
absent `x-github-event` header — or one that is not a valid string —
makes the kind default to `unknown` and the handler return the
unhandled-branch success response, never an error. -/
theorem C10_missing_event_header_unknown (secret : Option (List Nat))
    (sig ev : Option HeaderValue) (body : List Nat) (j : Json)
    (payload : WebhookPayload)
    (hev : ev = none ∨ ev = some .invalid)
    (hauth : secret = none ∨
      ∃ s cs, secret = some s ∧ sig = some (.valid cs) ∧
        verify_signature s body cs = true)
    (hde : deWebhookPayload j = some payload) :
    handle_webhook secret sig ev body (some j) =
      .ok ⟨"Successfully processed unknown event", true⟩ := by
  have hev' : (ev >>= HeaderValue.toStr) = none := by
    rcases hev with rfl | rfl <;> rfl
  have hafter : handle_webhook none none ev body (some j) =
      .ok ⟨"Successfully processed unknown event", true⟩ := by
    simp [handle_webhook, hde, hev', processEvent_always_ok]
    rfl
  rcases hauth with rfl | ⟨s, cs, rfl, rfl, hv⟩
  · exact hafter
  · simpa [handle_webhook, HeaderValue.toStr, hv] using hafter

set_option maxRecDepth 100000 in
theorem C10_missing_event_header_unknown_witness :
    handle_webhook (some [7]) (some (.valid (sign_header [7] [9]))) none [9]
      (some (.obj [])) =
        .ok ⟨"Successfully processed unknown event", true⟩ :=
  C10_missing_event_header_unknown (some [7]) (some (.valid (sign_header [7] [9])))
    none [9] (.obj []) ⟨none, none, none, none, none⟩ (Or.inl rfl)
    (Or.inr ⟨[7], sign_header [7] [9], rfl, rfl, by decide⟩) (by rfl)

end Nexus
